import Mathlib

/-!
Shallow embedding of the skincare-advisor routine engine
(`src/routines/builder.py`) and of the knowledge-graph query surface it
consumes, together with theorems settling the specification claims.

The `knowledge.ingredients` module is not part of the repository snapshot;
its query surface (`get_ingredient`, `get_interaction`,
`check_compatibility`, `get_recommended_ingredients`) is modelled from the
specification and kept abstract (a structure of functions) wherever a claim
only depends on the routine builder itself.
-/

set_option linter.unusedVariables false

/-- Time-of-day restriction of an ingredient (enum from the spec data model). -/
inductive TimeOfDay where
  | AM_ONLY
  | PM_ONLY
  | EITHER
deriving DecidableEq, Repr

/-- Skin concern enumeration (spec data model §3). -/
inductive SkinConcern where
  | ACNE
  | AGING
  | HYPERPIGMENTATION
  | DRYNESS
  | OILINESS
  | SENSITIVITY
  | REDNESS
  | DULLNESS
  | TEXTURE
  | PORES
deriving DecidableEq, Repr

/-- The `.value` string of a skin concern, as used by the Python enum. -/
def SkinConcern.value : SkinConcern → String
  | .ACNE => "acne"
  | .AGING => "aging"
  | .HYPERPIGMENTATION => "hyperpigmentation"
  | .DRYNESS => "dryness"
  | .OILINESS => "oiliness"
  | .SENSITIVITY => "sensitivity"
  | .REDNESS => "redness"
  | .DULLNESS => "dullness"
  | .TEXTURE => "texture"
  | .PORES => "pores"

/-- Skin type enumeration (spec data model §3). -/
inductive SkinType where
  | normal
  | dry
  | oily
  | combination
  | sensitive
deriving DecidableEq, Repr

/-- Interaction kind (enum from the spec data model §3). -/
inductive InteractionType where
  | CONFLICT
  | CAUTION
  | SYNERGY
  | NEUTRAL
deriving DecidableEq, Repr

/-- Modelled from the spec: an Ingredient record of the catalog.  The
`category` field holds the category enum's `.value` string (the builder
only ever compares `category.value` against string literals). -/
structure Ingredient where
  id : String
  name : String
  category : String
  addresses_concerns : List SkinConcern
  time_of_day : TimeOfDay
  application_order : Nat
deriving DecidableEq, Repr

/-- Modelled from the spec: an Interaction record of the interaction graph
(kind, human-readable recommendation, optional wait minutes). -/
structure Interaction where
  itype : InteractionType
  recommendation : String
  wait_minutes : Option Nat
deriving DecidableEq, Repr

/-- A SkinProfile: skin type plus set of concerns (spec data model §3). -/
structure SkinProfile where
  skin_type : SkinType
  concerns : List SkinConcern
deriving DecidableEq, Repr

/-- Modelled from the spec: the query surface of the
`IngredientKnowledgeGraph` service from the missing `knowledge.ingredients`
module, kept abstract as a structure of functions.  `get_ingredient`
resolves an id or name to a catalog record or not-found;
`get_interaction` is the pairwise interaction lookup;
`get_recommended_ingredients` is the concern-based recommendation query. -/
structure IngredientKnowledgeGraph where
  get_ingredient : String → Option Ingredient
  get_interaction : String → String → Option Interaction
  get_recommended_ingredients : SkinProfile → List Ingredient

/-- An entry of the conflicts/cautions/synergies buckets of a
compatibility result: the two ingredient ids and the interaction's
recommendation text (spec data model §3). -/
structure InteractionEntry where
  ingredient_a : String
  ingredient_b : String
  recommendation : String
deriving DecidableEq, Repr

/-- An entry of the wait-times bucket of a compatibility result. -/
structure WaitEntry where
  ingredient_a : String
  ingredient_b : String
  minutes : Nat
deriving DecidableEq, Repr

/-- Result shape of `check_compatibility` (spec §4.1). -/
structure CompatibilityResult where
  is_compatible : Bool
  conflicts : List InteractionEntry
  cautions : List InteractionEntry
  synergies : List InteractionEntry
  wait_times : List WaitEntry
deriving DecidableEq, Repr

/-- All ordered representatives of the unordered pairs of a list, each
unordered pair appearing exactly once (first element first). -/
def allPairs : List String → List (String × String)
  | [] => []
  | x :: xs => xs.map (fun y => (x, y)) ++ allPairs xs

/-- Modelled from the spec: `check_compatibility` of the knowledge-graph
service.  It examines every unordered pair of the input, classifies each
via `get_interaction` and buckets the results; `is_compatible` is false
iff at least one CONFLICT pair exists; `wait_times` collects all pairs
carrying a positive wait-minutes value regardless of kind. -/
def check_compatibility (kg : IngredientKnowledgeGraph) (ids : List String) :
    CompatibilityResult :=
  let ps := allPairs ids
  let pick : InteractionType → List InteractionEntry := fun t =>
    ps.filterMap fun p =>
      match kg.get_interaction p.1 p.2 with
      | some it => if it.itype = t then some ⟨p.1, p.2, it.recommendation⟩ else none
      | none => none
  let waits : List WaitEntry :=
    ps.filterMap fun p =>
      match kg.get_interaction p.1 p.2 with
      | some it =>
        match it.wait_minutes with
        | some w => if 0 < w then some ⟨p.1, p.2, w⟩ else none
        | none => none
      | none => none
  { is_compatible := (pick .CONFLICT).isEmpty
    conflicts := pick .CONFLICT
    cautions := pick .CAUTION
    synergies := pick .SYNERGY
    wait_times := waits }

/-- Morning or evening routine (`RoutineTime` in builder.py). -/
inductive RoutineTime where
  | AM
  | PM
deriving DecidableEq, Repr

/-- A single step in a skincare routine (`RoutineStep` in builder.py). -/
structure RoutineStep where
  order : Nat
  product_name : String
  ingredients : List String
  wait_after : Nat := 0
  notes : String := ""
deriving DecidableEq, Repr

instance : Inhabited RoutineStep := ⟨⟨0, "", [], 0, ""⟩⟩

/-- Results of analyzing a routine (`RoutineAnalysis` in builder.py). -/
structure RoutineAnalysis where
  is_valid : Bool
  conflicts : List InteractionEntry
  cautions : List InteractionEntry
  synergies : List InteractionEntry
  ordering_issues : List String
  missing_essentials : List String
  suggestions : List String
deriving DecidableEq, Repr

/-- A complete skincare routine (`Routine` in builder.py). -/
structure Routine where
  time : RoutineTime
  steps : List RoutineStep := []
deriving DecidableEq, Repr

/-- `Routine.get_all_ingredients`: flat list of all ingredient ids in the
routine, in step order. -/
def Routine.get_all_ingredients (r : Routine) : List String :=
  r.steps.flatMap (fun s => s.ingredients)

/-- A product entry passed to `build_routine`
(the Python dict `{"name": ..., "ingredients": [...]}`). -/
structure Product where
  name : String
  ingredients : List String
deriving DecidableEq, Repr

/-- `RoutineBuilder._get_step_order`: application order of a step, the
minimum `application_order` among its resolved ingredients, default 5. -/
def get_step_order (kg : IngredientKnowledgeGraph) (step : RoutineStep) : Nat :=
  if step.ingredients.isEmpty then 5
  else
    let orders := step.ingredients.filterMap fun ing_id =>
      (kg.get_ingredient ing_id).map (fun ing => ing.application_order)
    match orders with
    | [] => 5
    | o :: os => os.foldl min o

/-- `RoutineBuilder._get_product_order`: application order of a product
from its ingredient list, the minimum `application_order` among its
resolved ingredients, default 5. -/
def get_product_order (kg : IngredientKnowledgeGraph) (ingredient_ids : List String) : Nat :=
  if ingredient_ids.isEmpty then 5
  else
    let orders := ingredient_ids.filterMap fun ing_id =>
      (kg.get_ingredient ing_id).map (fun ing => ing.application_order)
    match orders with
    | [] => 5
    | o :: os => os.foldl min o

/-- The step stored at index `i` of a routine (default step when out of
range); used to state indexed properties. -/
def stepAt (r : Routine) (i : Nat) : RoutineStep :=
  r.steps.getD i default

/-- The ordering-issue message emitted by `_check_ordering` for the pair of
step indices `(i, j)` (0-based). -/
def ordering_msg (r : Routine) (i j : Nat) : String :=
  s!"'{(stepAt r i).product_name}' (step {i+1}) should come after '{(stepAt r j).product_name}' (step {j+1})"

/-- `RoutineBuilder._check_ordering`: for every pair of steps `(i, j)` with
`i` before `j`, flag an issue when step `i`'s effective order exceeds step
`j`'s. -/
def check_ordering (kg : IngredientKnowledgeGraph) (r : Routine) : List String :=
  (List.range r.steps.length).flatMap fun i =>
    ((List.range r.steps.length).filter fun j => decide (i < j)).filterMap fun j =>
      if get_step_order kg (stepAt r i) > get_step_order kg (stepAt r j)
      then some (ordering_msg r i j) else none

/-- Whether an ingredient id resolves in the catalog to an ingredient of
the given category (the test `kg.get_ingredient(i) and
kg.get_ingredient(i).category.value == cat` used by the builder). -/
def ingredient_resolves_category (kg : IngredientKnowledgeGraph)
    (ing_id : String) (cat : String) : Bool :=
  match kg.get_ingredient ing_id with
  | some ing => ing.category == cat
  | none => false

/-- Whether some ingredient of the routine resolves to the given
category. -/
def routine_resolves_category (kg : IngredientKnowledgeGraph) (r : Routine)
    (cat : String) : Bool :=
  r.get_all_ingredients.any fun ing_id =>
    ingredient_resolves_category kg ing_id cat

/-- `RoutineBuilder._check_missing_essentials`: SPF is essential for AM
routines, a moisturizer/ceramide ingredient is essential for every
routine. -/
def check_missing_essentials (kg : IngredientKnowledgeGraph) (r : Routine)
    (profile : Option SkinProfile) : List String :=
  let spf_missing : List String :=
    if r.time = RoutineTime.AM then
      let has_spf := routine_resolves_category kg r "sunscreen"
      if has_spf then [] else ["Sunscreen (SPF) - essential for morning routine"]
    else []
  let has_moisturizer := r.get_all_ingredients.any fun ing_id =>
    ingredient_resolves_category kg ing_id "moisturizer" ||
      ingredient_resolves_category kg ing_id "ceramide"
  spf_missing ++ (if has_moisturizer then [] else ["Moisturizer - needed to maintain skin barrier"])

/-- `RoutineBuilder._generate_suggestions`: wait-time suggestions, conflict
removal suggestions, and the profile-driven retinoid suggestion. -/
def generate_suggestions (kg : IngredientKnowledgeGraph) (r : Routine)
    (compatibility : CompatibilityResult) (profile : Option SkinProfile) : List String :=
  let wait_suggestions := compatibility.wait_times.map fun wait_pair =>
    s!"Wait 20-30 minutes between {wait_pair.ingredient_a} and {wait_pair.ingredient_b}"
  let conflict_suggestions := compatibility.conflicts.map fun conflict =>
    s!"Consider removing one of: {conflict.ingredient_a} or {conflict.ingredient_b}. {conflict.recommendation}"
  let profile_suggestions :=
    match profile with
    | some p =>
      if SkinConcern.AGING ∈ p.concerns then
        let all_ings := r.get_all_ingredients
        let has_retinoid := all_ings.any fun ing =>
          match kg.get_ingredient ing with
          | some i => i.category == "retinoid"
          | none => false
        if ¬ has_retinoid ∧ r.time = RoutineTime.PM then
          ["Consider adding a retinoid for anti-aging (PM routine only)"]
        else []
      else []
    | none => []
  wait_suggestions ++ conflict_suggestions ++ profile_suggestions

/-- `RoutineBuilder.analyze_routine`: compatibility over the routine's full
ingredient list, the ordering check, the missing-essentials check and the
suggestions; `is_valid` is computed from the conflict and ordering-issue
counts. -/
def analyze_routine (kg : IngredientKnowledgeGraph) (r : Routine)
    (profile : Option SkinProfile) : RoutineAnalysis :=
  let all_ingredients := r.get_all_ingredients
  let compatibility := check_compatibility kg all_ingredients
  let ordering_issues := check_ordering kg r
  let missing := check_missing_essentials kg r profile
  let suggestions := generate_suggestions kg r compatibility profile
  { is_valid := compatibility.conflicts.length == 0 && ordering_issues.length == 0
    conflicts := compatibility.conflicts
    cautions := compatibility.cautions
    synergies := compatibility.synergies
    ordering_issues := ordering_issues
    missing_essentials := missing
    suggestions := suggestions }

/-- `RoutineBuilder._check_time_appropriateness`: first ingredient
restricted to the opposite time-of-day produces a note. -/
def check_time_appropriateness (kg : IngredientKnowledgeGraph)
    (ingredient_ids : List String) (time : RoutineTime) : Bool × String :=
  match ingredient_ids with
  | [] => (true, "")
  | ing_id :: rest =>
    match kg.get_ingredient ing_id with
    | none => check_time_appropriateness kg rest time
    | some ingredient =>
      if time = RoutineTime.AM then
        if ingredient.time_of_day = TimeOfDay.PM_ONLY then
          (false, s!"{ingredient.name} should only be used at night")
        else check_time_appropriateness kg rest time
      else
        if ingredient.time_of_day = TimeOfDay.AM_ONLY then
          (false, s!"{ingredient.name} should only be used in the morning")
        else check_time_appropriateness kg rest time

/-- `RoutineBuilder._calculate_wait_time`: maximum wait-minutes over all
cross-pairs of the two ingredient lists (a pair counts when an interaction
record exists and its wait-minutes value is truthy). -/
def calculate_wait_time (kg : IngredientKnowledgeGraph)
    (current_ingredients next_ingredients : List String) : Nat :=
  current_ingredients.foldl
    (fun acc curr_id =>
      next_ingredients.foldl
        (fun acc2 next_id =>
          match kg.get_interaction curr_id next_id with
          | some interaction =>
            match interaction.wait_minutes with
            | some w => if w ≠ 0 then max acc2 w else acc2
            | none => acc2
          | none => acc2)
        acc)
    0

/-- The step-construction loop of `RoutineBuilder.build_routine` over the
already-sorted product list; `i` is the 0-based loop index. -/
def build_steps (kg : IngredientKnowledgeGraph) (time : RoutineTime) :
    Nat → List Product → List RoutineStep
  | _, [] => []
  | i, product :: rest =>
    let tc := check_time_appropriateness kg product.ingredients time
    let next_ingredients := match rest with
      | [] => []
      | q :: _ => q.ingredients
    let wait_time := calculate_wait_time kg product.ingredients next_ingredients
    { order := i + 1
      product_name := product.name
      ingredients := product.ingredients
      wait_after := wait_time
      notes := if tc.1 then "" else tc.2 } :: build_steps kg time (i + 1) rest

/-- The comparison used to sort products: ascending effective application
order (Python's stable `sorted` with `_get_product_order` as key). -/
def product_le (kg : IngredientKnowledgeGraph) (p q : Product) : Bool :=
  get_product_order kg p.ingredients ≤ get_product_order kg q.ingredients

/-- `RoutineBuilder.build_routine`: stable-sort products ascending by
effective application order, build the steps (positions, wait times,
time-appropriateness notes), then analyze the resulting routine. -/
def build_routine (kg : IngredientKnowledgeGraph) (products : List Product)
    (time : RoutineTime) (profile : Option SkinProfile) :
    Routine × RoutineAnalysis :=
  let sorted_products := products.mergeSort (product_le kg)
  let steps := build_steps kg time 0 sorted_products
  let routine : Routine := { time := time, steps := steps }
  (routine, analyze_routine kg routine profile)

/-- A step suggestion emitted by `suggest_routine` (the Python dict with
keys step/why/ingredients/priority). -/
structure StepSuggestion where
  step : String
  why : String
  ingredients : List String
  priority : String
deriving DecidableEq, Repr

instance : Inhabited StepSuggestion := ⟨⟨"", "", [], ""⟩⟩

/-- The cleanser suggestion always emitted first by `suggest_routine`. -/
def cleanser_suggestion : StepSuggestion :=
  { step := "Cleanser"
    why := "Removes dirt, oil, and products"
    ingredients := ["cleanser"]
    priority := "essential" }

/-- The moisturizer suggestion always emitted by `suggest_routine`. -/
def moisturizer_suggestion : StepSuggestion :=
  { step := "Moisturizer"
    why := "Maintains skin barrier and hydration"
    ingredients := ["ceramides", "hyaluronic_acid"]
    priority := "essential" }

/-- The sunscreen suggestion emitted by `suggest_routine` for AM. -/
def spf_suggestion : StepSuggestion :=
  { step := "Sunscreen (SPF 30+)"
    why := "Protects from UV damage - the #1 anti-aging step"
    ingredients := ["spf"]
    priority := "essential" }

/-- The treatment suggestion built for one recommended ingredient. -/
def treatment_suggestion (profile : SkinProfile) (ingredient : Ingredient) :
    StepSuggestion :=
  let concerns_addressed :=
    (ingredient.addresses_concerns.filter fun c => c ∈ profile.concerns).map
      SkinConcern.value
  { step := "Treatment: " ++ ingredient.name
    why := "Addresses: " ++ String.intercalate ", " concerns_addressed
    ingredients := [ingredient.id]
    priority := "recommended" }

/-- The treatment loop of `suggest_routine`: walk the (already truncated)
recommended list, skipping any ingredient whose category was already
used. -/
def treatments_loop (profile : SkinProfile) :
    List Ingredient → List String → List StepSuggestion
  | [], _ => []
  | ingredient :: rest, added_categories =>
    if ingredient.category ∈ added_categories then
      treatments_loop profile rest added_categories
    else
      treatment_suggestion profile ingredient ::
        treatments_loop profile rest (ingredient.category :: added_categories)

/-- The time-of-day filter of `suggest_routine`. -/
def time_appropriate (time : RoutineTime) (recommended : List Ingredient) :
    List Ingredient :=
  recommended.filter fun ing =>
    (time == RoutineTime.AM && ing.time_of_day != TimeOfDay.PM_ONLY) ||
    (time == RoutineTime.PM && ing.time_of_day != TimeOfDay.AM_ONLY)

/-- `RoutineBuilder.suggest_routine`: cleanser first, then up to five
treatment suggestions (one per category) from the time-filtered
recommended ingredients, then moisturizer, then sunscreen when AM.  The
`budget` argument is accepted but never read. -/
def suggest_routine (kg : IngredientKnowledgeGraph) (profile : SkinProfile)
    (time : RoutineTime) (budget : String) : List StepSuggestion :=
  let recommended := kg.get_recommended_ingredients profile
  let filtered := time_appropriate time recommended
  cleanser_suggestion ::
    treatments_loop profile (filtered.take 5) [] ++
    [moisturizer_suggestion] ++
    (if time = RoutineTime.AM then [spf_suggestion] else [])

/-- Result shape of `RoutineAnalyzer.compare_products`. -/
structure CompareResult where
  can_use_together : Bool
  conflicts : List InteractionEntry
  cautions : List InteractionEntry
  synergies : List InteractionEntry
  recommendation : String
deriving DecidableEq, Repr

/-- `RoutineAnalyzer._generate_combination_advice`: the four fixed
recommendation messages, in priority order. -/
def generate_combination_advice (compatibility : CompatibilityResult) : String :=
  if ¬ compatibility.conflicts.isEmpty then
    "These products should NOT be used together in the same routine."
  else if ¬ compatibility.cautions.isEmpty then
    "These can be used together with caution. Consider using on alternate days if irritation occurs."
  else if ¬ compatibility.synergies.isEmpty then
    "Great combination! These products complement each other well."
  else
    "No known interactions. Should be safe to use together."

/-- `RoutineAnalyzer.compare_products`: compatibility over the
concatenation of both ingredient lists, mapped to a combination advice. -/
def compare_products (kg : IngredientKnowledgeGraph)
    (product_a product_b : List String) : CompareResult :=
  let all_ingredients := product_a ++ product_b
  let compatibility := check_compatibility kg all_ingredients
  { can_use_together := compatibility.is_compatible
    conflicts := compatibility.conflicts
    cautions := compatibility.cautions
    synergies := compatibility.synergies
    recommendation := generate_combination_advice compatibility }

/-! ## Spec-side auxiliary definitions used to state the claims -/

/-- The application orders of the ingredient ids that resolve in the
catalog (unresolvable ids are dropped). -/
def resolved_orders (kg : IngredientKnowledgeGraph) (ids : List String) : List Nat :=
  ids.filterMap fun ing_id =>
    (kg.get_ingredient ing_id).map (fun ing => ing.application_order)

/-- The ordered pairs of step indices `(i, j)` with `i` strictly before `j`
whose effective order values are strictly decreasing: exactly the pairs
the ordering check must flag. -/
def ordering_violations (kg : IngredientKnowledgeGraph) (r : Routine) :
    List (Nat × Nat) :=
  (List.range r.steps.length).flatMap fun i =>
    (((List.range r.steps.length).filter fun j =>
        decide (i < j) &&
          decide (get_step_order kg (stepAt r i) > get_step_order kg (stepAt r j))).map
      fun j => (i, j))

/-- The wait-minutes values of the interaction records found across the
cross-pairs of two ingredient-id lists. -/
def pair_waits (kg : IngredientKnowledgeGraph) (a b : List String) : List Nat :=
  a.flatMap fun x => b.filterMap fun y =>
    match kg.get_interaction x y with
    | some it => it.wait_minutes
    | none => none

/-- Maximum of a list of naturals, 0 for the empty list. -/
def nat_list_max (l : List Nat) : Nat := l.foldr max 0

/-- Whether some ingredient of the list is restricted to the opposite
time-of-day (a PM_ONLY ingredient in an AM build, or an AM_ONLY ingredient
in a PM build). -/
def has_opposite_time (kg : IngredientKnowledgeGraph) (ids : List String)
    (time : RoutineTime) : Bool :=
  ids.any fun ing_id =>
    match kg.get_ingredient ing_id with
    | some ing =>
      (time == RoutineTime.AM && ing.time_of_day == TimeOfDay.PM_ONLY) ||
      (time == RoutineTime.PM && ing.time_of_day == TimeOfDay.AM_ONLY)
    | none => false

/-! ## A small concrete catalog used for witnesses and counterexamples -/

/-- Demo catalog entry: a gentle cleanser. -/
def ing_cleanser : Ingredient :=
  ⟨"cleanser_gentle", "Gentle Cleanser", "cleanser", [], TimeOfDay.EITHER, 1⟩

/-- Demo catalog entry: vitamin C. -/
def ing_vitc : Ingredient :=
  ⟨"vitamin_c", "Vitamin C", "serum_active",
    [SkinConcern.HYPERPIGMENTATION, SkinConcern.AGING, SkinConcern.DULLNESS],
    TimeOfDay.EITHER, 5⟩

/-- Demo catalog entry: retinol (PM only). -/
def ing_retinol : Ingredient :=
  ⟨"retinol", "Retinol", "retinoid",
    [SkinConcern.AGING, SkinConcern.ACNE, SkinConcern.TEXTURE],
    TimeOfDay.PM_ONLY, 5⟩

/-- Demo catalog entry: ceramide moisturizer. -/
def ing_ceramides : Ingredient :=
  ⟨"ceramides", "Ceramides", "ceramide", [SkinConcern.DRYNESS], TimeOfDay.EITHER, 8⟩

/-- Demo catalog entry: sunscreen (AM only). -/
def ing_spf : Ingredient :=
  ⟨"spf", "Sunscreen", "sunscreen", [], TimeOfDay.AM_ONLY, 10⟩

/-- Demo catalog entry: benzoyl peroxide. -/
def ing_bp : Ingredient :=
  ⟨"benzoyl_peroxide", "Benzoyl Peroxide", "serum_active",
    [SkinConcern.ACNE], TimeOfDay.EITHER, 5⟩

/-- A small concrete knowledge graph with one CONFLICT pair, one CAUTION
pair carrying a wait time, and one SYNERGY pair; instantiates the abstract
service for witnesses and counterexamples. -/
def kgDemo : IngredientKnowledgeGraph where
  get_ingredient := fun s =>
    if s = "cleanser_gentle" then some ing_cleanser
    else if s = "vitamin_c" then some ing_vitc
    else if s = "retinol" then some ing_retinol
    else if s = "ceramides" then some ing_ceramides
    else if s = "spf" then some ing_spf
    else if s = "benzoyl_peroxide" then some ing_bp
    else none
  get_interaction := fun a b =>
    if (a = "retinol" ∧ b = "vitamin_c") ∨ (a = "vitamin_c" ∧ b = "retinol") then
      some ⟨InteractionType.CAUTION, "Use on alternate days", some 20⟩
    else if (a = "retinol" ∧ b = "benzoyl_peroxide") ∨
        (a = "benzoyl_peroxide" ∧ b = "retinol") then
      some ⟨InteractionType.CONFLICT, "They deactivate each other", none⟩
    else if (a = "vitamin_c" ∧ b = "spf") ∨ (a = "spf" ∧ b = "vitamin_c") then
      some ⟨InteractionType.SYNERGY, "Antioxidant plus sunscreen", none⟩
    else none
  get_recommended_ingredients := fun _ => [ing_retinol, ing_vitc]

/-- A demo profile whose only concern is aging. -/
def aging_profile : SkinProfile := ⟨SkinType.normal, [SkinConcern.AGING]⟩

/-! ## General helper lemmas -/

theorem foldl_min_le_init (os : List Nat) : ∀ o : Nat, os.foldl min o ≤ o := by
  induction os with
  | nil => intro o; simp
  | cons y ys ih =>
    intro o
    simp only [List.foldl_cons]
    exact le_trans (ih (min o y)) (Nat.min_le_left o y)

theorem foldl_min_le_mem (os : List Nat) :
    ∀ o x : Nat, x ∈ os → os.foldl min o ≤ x := by
  induction os with
  | nil => intro o x hx; simp at hx
  | cons y ys ih =>
    intro o x hx
    simp only [List.foldl_cons]
    rcases List.mem_cons.mp hx with rfl | hx'
    · exact le_trans (foldl_min_le_init ys (min o x)) (Nat.min_le_right o x)
    · exact ih (min o y) x hx'

theorem foldl_min_mem (os : List Nat) : ∀ o : Nat, os.foldl min o ∈ o :: os := by
  induction os with
  | nil => intro o; simp
  | cons y ys ih =>
    intro o
    simp only [List.foldl_cons]
    have h := ih (min o y)
    rcases List.mem_cons.mp h with h' | h'
    · rcases Nat.le_total o y with hle | hle
      · rw [h', Nat.min_eq_left hle]; simp
      · rw [h', Nat.min_eq_right hle]; simp
    · simp [h']

theorem nat_list_max_append (l₁ l₂ : List Nat) :
    nat_list_max (l₁ ++ l₂) = max (nat_list_max l₁) (nat_list_max l₂) := by
  induction l₁ with
  | nil => simp [nat_list_max]
  | cons x xs ih =>
    simp [nat_list_max, List.foldr_cons] at ih ⊢
    omega

theorem filterMap_ite_eq_filter_map {α β : Type} (l : List α) (p : α → Prop)
    [DecidablePred p] (f : α → β) :
    (l.filterMap fun x => if p x then some (f x) else none) =
      (l.filter fun x => decide (p x)).map f := by
  induction l with
  | nil => rfl
  | cons x xs ih =>
    by_cases h : p x <;> simp [List.filterMap_cons, List.filter_cons, h, ih]

theorem stepAt_eq_getElem (r : Routine) (i : Nat) (h : i < r.steps.length) :
    stepAt r i = r.steps[i] := by
  unfold stepAt
  rw [List.getD_eq_getElem?_getD, List.getElem?_eq_getElem h]
  rfl

theorem string_append_ne_empty_of_right (a b : String) (hb : b.length ≠ 0) :
    a ++ b ≠ "" := by
  intro h
  have hl := congrArg String.length h
  rw [String.length_append] at hl
  have h0 : ("" : String).length = 0 := rfl
  omega

/-! ## Claim theorems -/

/-- C1: for every routine and optional profile, the RoutineAnalysis
returned by `analyze_routine` has `is_valid` true if and only if its
conflicts list is empty and its ordering_issues list is empty (so
non-empty cautions or missing essentials alone never make it false). -/
theorem analyze_routine_is_valid_iff (kg : IngredientKnowledgeGraph)
    (r : Routine) (profile : Option SkinProfile) :
    (analyze_routine kg r profile).is_valid = true ↔
      ((analyze_routine kg r profile).conflicts = [] ∧
        (analyze_routine kg r profile).ordering_issues = []) := by
  simp [analyze_routine, List.length_eq_zero]

/-- C3: `build_routine` computes a product's effective application order
as the minimum `application_order` over the ingredient ids that resolve in
the catalog; unresolvable ids are ignored, and if none resolve (in
particular for an empty ingredient list) the order is 5. -/
theorem get_product_order_min_spec (kg : IngredientKnowledgeGraph)
    (ids : List String) :
    (resolved_orders kg ids = [] → get_product_order kg ids = 5) ∧
    (∀ o ∈ resolved_orders kg ids, get_product_order kg ids ≤ o) ∧
    (resolved_orders kg ids ≠ [] →
      get_product_order kg ids ∈ resolved_orders kg ids) := by
  have hdef : get_product_order kg ids =
      match resolved_orders kg ids with
      | [] => 5
      | o :: os => os.foldl min o := by
    unfold get_product_order resolved_orders
    cases h : ids.isEmpty with
    | true =>
      have h' : ids = [] := List.isEmpty_iff.mp h
      subst h'
      simp
    | false => simp [h]
  rw [hdef]
  generalize resolved_orders kg ids = m
  cases m with
  | nil => simp
  | cons o os =>
    refine ⟨by simp, ?_, fun _ => foldl_min_mem os o⟩
    intro x hx
    rcases List.mem_cons.mp hx with h | h'
    · subst h; exact foldl_min_le_init os x
    · exact foldl_min_le_mem os o x h'

/-- Witness for C3 at a concrete input: of the ids
`["retinol", "cleanser_gentle", "unknown"]` only the first two resolve
(orders 5 and 1) and the computed effective order 1 is among them. -/
theorem get_product_order_min_spec_witness :
    resolved_orders kgDemo ["retinol", "cleanser_gentle", "unknown"] ≠ [] ∧
    get_product_order kgDemo ["retinol", "cleanser_gentle", "unknown"] ∈
      resolved_orders kgDemo ["retinol", "cleanser_gentle", "unknown"] :=
  ⟨by decide,
    (get_product_order_min_spec kgDemo
      ["retinol", "cleanser_gentle", "unknown"]).2.2 (by decide)⟩

/-- C10: `suggest_routine` never reads its `budget` argument, so any two
budget values produce identical step-suggestion lists. -/
theorem suggest_routine_budget_independent (kg : IngredientKnowledgeGraph)
    (profile : SkinProfile) (time : RoutineTime) (b1 b2 : String) :
    suggest_routine kg profile time b1 = suggest_routine kg profile time b2 := rfl

/-- C9: `compare_products` runs the compatibility check on the
concatenation of the two ingredient lists, copies its flag and buckets,
and chooses exactly one of four fixed recommendation messages in priority
order (conflict, then caution, then synergy, then no known interaction). -/
theorem compare_products_spec (kg : IngredientKnowledgeGraph)
    (product_a product_b : List String) :
    (compare_products kg product_a product_b).can_use_together =
      (check_compatibility kg (product_a ++ product_b)).is_compatible ∧
    (compare_products kg product_a product_b).conflicts =
      (check_compatibility kg (product_a ++ product_b)).conflicts ∧
    (compare_products kg product_a product_b).cautions =
      (check_compatibility kg (product_a ++ product_b)).cautions ∧
    (compare_products kg product_a product_b).synergies =
      (check_compatibility kg (product_a ++ product_b)).synergies ∧
    (compare_products kg product_a product_b).recommendation ∈
      ["These products should NOT be used together in the same routine.",
       "These can be used together with caution. Consider using on alternate days if irritation occurs.",
       "Great combination! These products complement each other well.",
       "No known interactions. Should be safe to use together."] ∧
    ((check_compatibility kg (product_a ++ product_b)).conflicts ≠ [] →
      (compare_products kg product_a product_b).recommendation =
        "These products should NOT be used together in the same routine.") ∧
    ((check_compatibility kg (product_a ++ product_b)).conflicts = [] →
      (check_compatibility kg (product_a ++ product_b)).cautions ≠ [] →
      (compare_products kg product_a product_b).recommendation =
        "These can be used together with caution. Consider using on alternate days if irritation occurs.") ∧
    ((check_compatibility kg (product_a ++ product_b)).conflicts = [] →
      (check_compatibility kg (product_a ++ product_b)).cautions = [] →
      (check_compatibility kg (product_a ++ product_b)).synergies ≠ [] →
      (compare_products kg product_a product_b).recommendation =
        "Great combination! These products complement each other well.") ∧
    ((check_compatibility kg (product_a ++ product_b)).conflicts = [] →
      (check_compatibility kg (product_a ++ product_b)).cautions = [] →
      (check_compatibility kg (product_a ++ product_b)).synergies = [] →
      (compare_products kg product_a product_b).recommendation =
        "No known interactions. Should be safe to use together.") := by
  have hrec : (compare_products kg product_a product_b).recommendation =
      generate_combination_advice
        (check_compatibility kg (product_a ++ product_b)) := rfl
  refine ⟨rfl, rfl, rfl, rfl, ?_, ?_, ?_, ?_, ?_⟩ <;>
    rw [hrec] <;> unfold generate_combination_advice
  · split_ifs <;> simp
  · intro h1
    simp [List.isEmpty_iff, h1]
  · intro h1 h2
    simp [List.isEmpty_iff, h1, h2]
  · intro h1 h2 h3
    simp [List.isEmpty_iff, h1, h2, h3]
  · intro h1 h2 h3
    simp [List.isEmpty_iff, h1, h2, h3]

/-- Witness for C9 at a concrete input: retinol and benzoyl peroxide carry
a CONFLICT record, so the recommendation is the do-not-combine message. -/
theorem compare_products_spec_witness :
    (check_compatibility kgDemo (["retinol"] ++ ["benzoyl_peroxide"])).conflicts ≠ [] ∧
    (compare_products kgDemo ["retinol"] ["benzoyl_peroxide"]).recommendation =
      "These products should NOT be used together in the same routine." :=
  ⟨by decide,
    (compare_products_spec kgDemo ["retinol"] ["benzoyl_peroxide"]).2.2.2.2.2.1
      (by decide)⟩

/-- A concrete AM routine with a single vitamin-C step and no
sunscreen-category ingredient. -/
def am_no_spf_routine : Routine :=
  ⟨RoutineTime.AM, [⟨1, "Vitamin C Serum", ["vitamin_c"], 0, ""⟩]⟩

/-- A concrete sunscreen step. -/
def spf_step : RoutineStep := ⟨2, "Daily Sunscreen", ["spf"], 0, ""⟩

/-- Counterexample for C6: the claim quotes the missing-essentials entry
with an em dash ("Sunscreen (SPF) — essential for morning routine"), but
the code emits a plain hyphen; on an AM routine with no sunscreen-category
ingredient the em-dash entry is absent from `missing_essentials`, so the
claimed biconditional fails at this input. -/
theorem missing_spf_em_dash_counterexample :
    am_no_spf_routine.time = RoutineTime.AM ∧
    routine_resolves_category kgDemo am_no_spf_routine "sunscreen" = false ∧
    "Sunscreen (SPF) — essential for morning routine" ∉
      (analyze_routine kgDemo am_no_spf_routine none).missing_essentials ∧
    (analyze_routine kgDemo am_no_spf_routine none).missing_essentials =
      ["Sunscreen (SPF) - essential for morning routine",
       "Moisturizer - needed to maintain skin barrier"] := by decide

/-- C6 (amended: the entry is spelled with a plain hyphen,
"Sunscreen (SPF) - essential for morning routine"): for every AM routine,
`missing_essentials` contains that entry exactly when no ingredient of the
routine resolves to a sunscreen-category ingredient, and appending a step
containing a sunscreen-category ingredient removes the entry. -/
theorem missing_spf_iff (kg : IngredientKnowledgeGraph) (r : Routine)
    (profile : Option SkinProfile) (hAM : r.time = RoutineTime.AM) :
    ("Sunscreen (SPF) - essential for morning routine" ∈
        (analyze_routine kg r profile).missing_essentials ↔
      routine_resolves_category kg r "sunscreen" = false) ∧
    (∀ s : RoutineStep,
      (s.ingredients.any fun i => ingredient_resolves_category kg i "sunscreen") = true →
      "Sunscreen (SPF) - essential for morning routine" ∉
        (analyze_routine kg ⟨r.time, r.steps ++ [s]⟩ profile).missing_essentials) := by
  constructor
  · have hm : (analyze_routine kg r profile).missing_essentials =
        check_missing_essentials kg r profile := rfl
    rw [hm]
    unfold check_missing_essentials
    simp only [hAM, if_pos rfl]
    cases hs : routine_resolves_category kg r "sunscreen" with
    | true =>
      simp only [hs, if_pos rfl, List.nil_append]
      cases hmo : r.get_all_ingredients.any fun ing_id =>
          ingredient_resolves_category kg ing_id "moisturizer" ||
            ingredient_resolves_category kg ing_id "ceramide" with
      | true => simp
      | false => simp
    | false =>
      simp [hs]
  · intro s hsun
    obtain ⟨t, steps⟩ := r
    have ht : t = RoutineTime.AM := hAM
    subst ht
    have hm : (analyze_routine kg ⟨RoutineTime.AM, steps ++ [s]⟩ profile).missing_essentials =
        check_missing_essentials kg ⟨RoutineTime.AM, steps ++ [s]⟩ profile := rfl
    rw [hm]
    have hres : routine_resolves_category kg ⟨RoutineTime.AM, steps ++ [s]⟩ "sunscreen" = true := by
      unfold routine_resolves_category Routine.get_all_ingredients
      simp only [List.flatMap_append, List.flatMap_cons, List.flatMap_nil,
        List.append_nil, List.any_append]
      rw [hsun]
      simp
    simp only [check_missing_essentials, hres]
    simp only [if_pos rfl, if_true, List.nil_append]
    split
    · simp
    · decide

/-- Witness for C6 (amended) at concrete inputs: the AM vitamin-C routine
gets the hyphen-spelled entry, and appending the sunscreen step removes
it. -/
theorem missing_spf_iff_witness :
    am_no_spf_routine.time = RoutineTime.AM ∧
    ("Sunscreen (SPF) - essential for morning routine" ∈
      (analyze_routine kgDemo am_no_spf_routine none).missing_essentials) ∧
    ("Sunscreen (SPF) - essential for morning routine" ∉
      (analyze_routine kgDemo
        ⟨am_no_spf_routine.time, am_no_spf_routine.steps ++ [spf_step]⟩
        none).missing_essentials) :=
  ⟨rfl,
    (missing_spf_iff kgDemo am_no_spf_routine none rfl).1.mpr (by decide),
    (missing_spf_iff kgDemo am_no_spf_routine none rfl).2 spf_step (by decide)⟩

/-- C2: the ordering check emits exactly one issue (its message) for each
pair of step indices `(i, j)` with `i` strictly before `j` whose effective
order values are strictly decreasing, and no issue for any other pair;
consequently a routine whose steps are sorted by non-decreasing effective
order yields zero ordering issues. -/
theorem check_ordering_spec (kg : IngredientKnowledgeGraph) (r : Routine) :
    check_ordering kg r =
      (ordering_violations kg r).map (fun p => ordering_msg r p.1 p.2) ∧
    (r.steps.Pairwise
        (fun s t => get_step_order kg s ≤ get_step_order kg t) →
      check_ordering kg r = []) := by
  constructor
  · unfold check_ordering ordering_violations
    rw [List.map_flatMap]
    refine congrArg (List.flatMap (List.range r.steps.length)) (funext fun i => ?_)
    rw [filterMap_ite_eq_filter_map, List.filter_filter, List.map_map]
    have hfun : ((fun p : Nat × Nat => ordering_msg r p.1 p.2) ∘ fun j => (i, j)) =
        fun j => ordering_msg r i j := rfl
    rw [hfun]
    refine congrArg (List.map fun j => ordering_msg r i j) ?_
    refine List.filter_congr fun a _ => ?_
    exact Bool.and_comm _ _
  · intro hpw
    unfold check_ordering
    rw [List.flatMap_eq_nil_iff]
    intro i hi
    rw [List.filterMap_eq_nil_iff]
    intro j hj
    have hj' := List.mem_filter.mp hj
    have hij : i < j := of_decide_eq_true hj'.2
    have hiN : i < r.steps.length := List.mem_range.mp hi
    have hjN : j < r.steps.length := List.mem_range.mp hj'.1
    have hle : get_step_order kg (stepAt r i) ≤ get_step_order kg (stepAt r j) := by
      rw [stepAt_eq_getElem r i hiN, stepAt_eq_getElem r j hjN]
      exact List.pairwise_iff_getElem.mp hpw i j hiN hjN hij
    rw [if_neg]
    exact Nat.not_lt.mpr hle

/-- A concrete routine already sorted by non-decreasing effective order
(cleanser 1, vitamin C 5, sunscreen 10). -/
def sorted_am_routine : Routine :=
  ⟨RoutineTime.AM,
    [⟨1, "Cleanser", ["cleanser_gentle"], 0, ""⟩,
     ⟨2, "Vitamin C Serum", ["vitamin_c"], 0, ""⟩,
     ⟨3, "Daily Sunscreen", ["spf"], 0, ""⟩]⟩

/-- Witness for C2 at a concrete input: the sorted demo routine is
pairwise non-decreasing in effective order and produces zero ordering
issues. -/
theorem check_ordering_spec_witness :
    sorted_am_routine.steps.Pairwise
      (fun s t => get_step_order kgDemo s ≤ get_step_order kgDemo t) ∧
    check_ordering kgDemo sorted_am_routine = [] :=
  ⟨by decide, (check_ordering_spec kgDemo sorted_am_routine).2 (by decide)⟩

theorem calc_wait_inner (kg : IngredientKnowledgeGraph) (x : String) :
    ∀ (b : List String) (acc : Nat),
    (b.foldl
      (fun acc2 next_id =>
        match kg.get_interaction x next_id with
        | some interaction =>
          match interaction.wait_minutes with
          | some w => if w ≠ 0 then max acc2 w else acc2
          | none => acc2
        | none => acc2)
      acc) =
    max acc (nat_list_max (b.filterMap fun y =>
      match kg.get_interaction x y with
      | some it => it.wait_minutes
      | none => none)) := by
  intro b
  induction b with
  | nil => intro acc; simp [nat_list_max]
  | cons y ys ih =>
    intro acc
    simp only [List.foldl_cons, List.filterMap_cons]
    cases hint : kg.get_interaction x y with
    | none =>
      simp only [hint]
      rw [ih]
    | some it =>
      cases hw : it.wait_minutes with
      | none =>
        simp only [hint, hw]
        rw [ih]
      | some w =>
        by_cases hw0 : w = 0
        · simp only [hint, hw, hw0, ne_eq, not_true_eq_false, if_false]
          rw [ih]
          simp [nat_list_max]
        · simp only [hint, hw, ne_eq, hw0, not_false_eq_true, if_true]
          rw [ih]
          have : nat_list_max (w :: ys.filterMap fun y =>
              match kg.get_interaction x y with
              | some it => it.wait_minutes
              | none => none) =
            max w (nat_list_max (ys.filterMap fun y =>
              match kg.get_interaction x y with
              | some it => it.wait_minutes
              | none => none)) := rfl
          rw [this, Nat.max_assoc]

theorem calculate_wait_time_eq (kg : IngredientKnowledgeGraph)
    (a b : List String) :
    calculate_wait_time kg a b = nat_list_max (pair_waits kg a b) := by
  unfold calculate_wait_time pair_waits
  suffices h : ∀ acc : Nat,
      (a.foldl
        (fun acc curr_id =>
          b.foldl
            (fun acc2 next_id =>
              match kg.get_interaction curr_id next_id with
              | some interaction =>
                match interaction.wait_minutes with
                | some w => if w ≠ 0 then max acc2 w else acc2
                | none => acc2
              | none => acc2)
            acc)
        acc) =
      max acc (nat_list_max (a.flatMap fun x => b.filterMap fun y =>
        match kg.get_interaction x y with
        | some it => it.wait_minutes
        | none => none)) by
    rw [h 0]
    simp
  induction a with
  | nil => intro acc; simp [nat_list_max]
  | cons x xs ih =>
    intro acc
    simp only [List.foldl_cons, List.flatMap_cons]
    rw [calc_wait_inner, ih, nat_list_max_append, Nat.max_assoc]

theorem build_steps_wait_getD (kg : IngredientKnowledgeGraph)
    (time : RoutineTime) :
    ∀ (l : List Product) (n i : Nat),
    ((build_steps kg time n l).getD i default).wait_after =
      calculate_wait_time kg
        ((build_steps kg time n l).getD i default).ingredients
        ((build_steps kg time n l).getD (i+1) default).ingredients
  | [], n, i => by
    simp only [build_steps, List.getD_nil]
    rfl
  | p :: rest, n, 0 => by
    cases rest with
    | nil => rfl
    | cons q rest2 => rfl
  | p :: rest, n, i + 1 => by
    simp only [build_steps, List.getD_cons_succ]
    exact build_steps_wait_getD kg time rest (n+1) i

theorem build_steps_getLastD_wait (kg : IngredientKnowledgeGraph)
    (time : RoutineTime) :
    ∀ (l : List Product) (n : Nat) (d : RoutineStep), l ≠ [] →
    ((build_steps kg time n l).getLastD d).wait_after = 0
  | [], _, _, h => absurd rfl h
  | [p], n, d, _ => by
    show ((build_steps kg time n [p]).getLastD d).wait_after = 0
    simp only [build_steps, List.getLastD_cons, List.getLastD_nil]
    rw [calculate_wait_time_eq]
    unfold pair_waits
    have hnil : (p.ingredients.flatMap fun x =>
        List.filterMap
          (fun y =>
            match kg.get_interaction x y with
            | some it => it.wait_minutes
            | none => none)
          []) = [] := by
      simp [List.flatMap_eq_nil_iff]
    rw [hnil]
    rfl
  | p :: q :: rest, n, d, _ => by
    show ((build_steps kg time n (p :: q :: rest)).getLastD d).wait_after = 0
    rw [build_steps, List.getLastD_cons]
    exact build_steps_getLastD_wait kg time (q :: rest) (n+1) _ (by simp)

/-- C5: in the routine returned by `build_routine`, each step's
`wait_after` is the maximum wait-minutes over the interaction records
found for the cross-pairs of its ingredient ids with the next step's
ingredient ids (0 when no such pair carries a wait time); the last step's
`wait_after` is always 0. -/
theorem build_routine_wait_spec (kg : IngredientKnowledgeGraph)
    (products : List Product) (time : RoutineTime)
    (profile : Option SkinProfile) :
    (∀ i : Nat,
      (((build_routine kg products time profile).1.steps.getD i default).wait_after) =
        nat_list_max (pair_waits kg
          (((build_routine kg products time profile).1.steps.getD i default).ingredients)
          (((build_routine kg products time profile).1.steps.getD (i+1) default).ingredients))) ∧
    ((build_routine kg products time profile).1.steps.getLastD default).wait_after = 0 := by
  have hsteps : (build_routine kg products time profile).1.steps =
      build_steps kg time 0 (products.mergeSort (product_le kg)) := rfl
  constructor
  · intro i
    rw [hsteps, build_steps_wait_getD kg time _ 0 i, calculate_wait_time_eq]
  · rw [hsteps]
    cases hm : products.mergeSort (product_le kg) with
    | nil => rfl
    | cons p rest =>
      exact build_steps_getLastD_wait kg time (p :: rest) 0 default (by simp)

theorem build_steps_map_proj {β : Type} (kg : IngredientKnowledgeGraph)
    (time : RoutineTime) (f : String → List String → β) :
    ∀ (l : List Product) (n : Nat),
    (build_steps kg time n l).map (fun s => f s.product_name s.ingredients) =
      l.map (fun p => f p.name p.ingredients)
  | [], _ => rfl
  | p :: rest, n => by
    simp only [build_steps, List.map_cons]
    rw [build_steps_map_proj kg time f rest (n+1)]

theorem build_steps_map_order (kg : IngredientKnowledgeGraph)
    (time : RoutineTime) :
    ∀ (l : List Product) (n : Nat),
    (build_steps kg time n l).map (fun s => s.order) =
      List.range' (n+1) l.length
  | [], _ => rfl
  | p :: rest, n => by
    simp only [build_steps, List.map_cons, List.length_cons, List.range'_succ]
    rw [build_steps_map_order kg time rest (n+1)]

theorem build_steps_length (kg : IngredientKnowledgeGraph)
    (time : RoutineTime) (l : List Product) (n : Nat) :
    (build_steps kg time n l).length = l.length := by
  have h := congrArg List.length
    (build_steps_map_proj kg time (fun name ings => name) l n)
  simpa using h

theorem product_le_trans (kg : IngredientKnowledgeGraph) :
    ∀ a b c : Product, product_le kg a b → product_le kg b c →
      product_le kg a c := by
  intro a b c hab hbc
  unfold product_le at *
  simp only [decide_eq_true_eq] at *
  omega

theorem product_le_total (kg : IngredientKnowledgeGraph) :
    ∀ a b : Product, product_le kg a b || product_le kg b a := by
  intro a b
  unfold product_le
  rcases Nat.le_total (get_product_order kg a.ingredients)
    (get_product_order kg b.ingredients) with h | h <;> simp [h]

/-- C4: `build_routine` orders the steps ascending by effective
application order with a stable sort — the mapped (name, ingredients)
pairs are a permutation of the input products, and for every order value
the sub-sequence of entries with that effective order is exactly the
input's sub-sequence — and assigns the steps sequential positions
1, 2, ..., n. -/
theorem build_routine_sort_spec (kg : IngredientKnowledgeGraph)
    (products : List Product) (time : RoutineTime)
    (profile : Option SkinProfile) :
    ((build_routine kg products time profile).1.steps.map
        fun s => get_product_order kg s.ingredients).Pairwise (· ≤ ·) ∧
    List.Perm
      ((build_routine kg products time profile).1.steps.map
        fun s => (s.product_name, s.ingredients))
      (products.map fun p => (p.name, p.ingredients)) ∧
    (∀ k : Nat,
      (((build_routine kg products time profile).1.steps.map
          fun s => (s.product_name, s.ingredients)).filter
        fun x => get_product_order kg x.2 == k) =
      ((products.map fun p => (p.name, p.ingredients)).filter
        fun x => get_product_order kg x.2 == k)) ∧
    ((build_routine kg products time profile).1.steps.map fun s => s.order) =
      List.range' 1 (build_routine kg products time profile).1.steps.length := by
  have hsteps : (build_routine kg products time profile).1.steps =
      build_steps kg time 0 (products.mergeSort (product_le kg)) := rfl
  have hproj : ∀ {β : Type} (f : String → List String → β),
      ((build_routine kg products time profile).1.steps.map
        fun s => f s.product_name s.ingredients) =
      (products.mergeSort (product_le kg)).map fun p => f p.name p.ingredients := by
    intro β f
    rw [hsteps]
    exact build_steps_map_proj kg time f _ 0
  refine ⟨?_, ?_, ?_, ?_⟩
  · have h := hproj (fun name ings => get_product_order kg ings)
    rw [show ((build_routine kg products time profile).1.steps.map
        fun s => get_product_order kg s.ingredients) =
        ((build_routine kg products time profile).1.steps.map
          fun s => (fun (name : String) (ings : List String) =>
            get_product_order kg ings) s.product_name s.ingredients) from rfl]
    rw [h]
    rw [List.pairwise_map]
    have hs := @List.sorted_mergeSort _ (product_le kg)
      (product_le_trans kg) (product_le_total kg) products
    refine hs.imp ?_
    intro a b hab
    have := of_decide_eq_true hab
    exact this
  · rw [hproj (fun name ings => (name, ings))]
    exact (List.mergeSort_perm products (product_le kg)).map _
  · intro k
    rw [hproj (fun name ings => (name, ings))]
    rw [List.filter_map, List.filter_map]
    refine congrArg (List.map fun p : Product => (p.name, p.ingredients)) ?_
    have hq : ((fun x : String × List String => get_product_order kg x.2 == k) ∘
        fun p : Product => (p.name, p.ingredients)) =
        fun p : Product => get_product_order kg p.ingredients == k := rfl
    rw [hq]
    set q : Product → Bool := fun p => get_product_order kg p.ingredients == k with hqdef
    have hkey : ∀ a ∈ products.filter q, get_product_order kg a.ingredients = k := by
      intro a ha
      have := (List.mem_filter.mp ha).2
      simpa [hqdef] using this
    have hpw : (products.filter q).Pairwise (fun a b => product_le kg a b = true) := by
      refine List.pairwise_of_forall_mem_list ?_
      intro a ha b hb
      unfold product_le
      rw [hkey a ha, hkey b hb]
      simp
    have hsub : List.Sublist (products.filter q)
        (products.mergeSort (product_le kg)) :=
      List.sublist_mergeSort (product_le_trans kg) (product_le_total kg) hpw
        (List.filter_sublist products)
    have hself : (products.filter q).filter q = products.filter q :=
      List.filter_eq_self.mpr fun a ha => (List.mem_filter.mp ha).2
    have hsubf : List.Sublist (products.filter q)
        ((products.mergeSort (product_le kg)).filter q) := by
      have h2 := hsub.filter q
      rw [hself] at h2
      exact h2
    have hlen : ((products.mergeSort (product_le kg)).filter q).length =
        (products.filter q).length :=
      ((List.mergeSort_perm products (product_le kg)).filter q).length_eq
    exact (hsubf.eq_of_length hlen.symm).symm
  · rw [hsteps, build_steps_map_order kg time _ 0, build_steps_length]

theorem cta_fst (kg : IngredientKnowledgeGraph) (time : RoutineTime) :
    ∀ ids : List String,
    (check_time_appropriateness kg ids time).1 = !(has_opposite_time kg ids time)
  | [] => by simp [check_time_appropriateness, has_opposite_time]
  | ing_id :: rest => by
    simp only [check_time_appropriateness, has_opposite_time, List.any_cons]
    cases hint : kg.get_ingredient ing_id with
    | none =>
      simpa [hint, has_opposite_time] using cta_fst kg time rest
    | some ing =>
      cases time with
      | AM =>
        cases htod : ing.time_of_day with
        | PM_ONLY => simp [hint, htod]
        | AM_ONLY =>
          simpa [hint, htod, has_opposite_time] using cta_fst kg RoutineTime.AM rest
        | EITHER =>
          simpa [hint, htod, has_opposite_time] using cta_fst kg RoutineTime.AM rest
      | PM =>
        cases htod : ing.time_of_day with
        | AM_ONLY => simp [hint, htod]
        | PM_ONLY =>
          simpa [hint, htod, has_opposite_time] using cta_fst kg RoutineTime.PM rest
        | EITHER =>
          simpa [hint, htod, has_opposite_time] using cta_fst kg RoutineTime.PM rest

theorem cta_snd_ne (kg : IngredientKnowledgeGraph) (time : RoutineTime) :
    ∀ ids : List String, has_opposite_time kg ids time = true →
    (check_time_appropriateness kg ids time).2 ≠ ""
  | [] => by simp [has_opposite_time]
  | ing_id :: rest => by
    intro h
    simp only [check_time_appropriateness]
    cases hint : kg.get_ingredient ing_id with
    | none =>
      apply cta_snd_ne kg time rest
      revert h
      simp [has_opposite_time, hint]
    | some ing =>
      cases time with
      | AM =>
        cases htod : ing.time_of_day with
        | PM_ONLY =>
          simp only [hint, htod, reduceIte]
          exact string_append_ne_empty_of_right _ _ (by decide)
        | AM_ONLY =>
          simp only [hint, htod, reduceIte]
          apply cta_snd_ne kg RoutineTime.AM rest
          revert h
          simp [has_opposite_time, hint, htod]
        | EITHER =>
          simp only [hint, htod, reduceIte]
          apply cta_snd_ne kg RoutineTime.AM rest
          revert h
          simp [has_opposite_time, hint, htod]
      | PM =>
        cases htod : ing.time_of_day with
        | AM_ONLY =>
          simp only [hint, htod, reduceIte]
          exact string_append_ne_empty_of_right _ _ (by decide)
        | PM_ONLY =>
          simp only [hint, htod, reduceIte]
          apply cta_snd_ne kg RoutineTime.PM rest
          revert h
          simp [has_opposite_time, hint, htod]
        | EITHER =>
          simp only [hint, htod, reduceIte]
          apply cta_snd_ne kg RoutineTime.PM rest
          revert h
          simp [has_opposite_time, hint, htod]

theorem build_steps_notes_spec (kg : IngredientKnowledgeGraph)
    (time : RoutineTime) :
    ∀ (l : List Product) (n : Nat),
    ∀ s ∈ build_steps kg time n l,
      (s.notes ≠ "" ↔ has_opposite_time kg s.ingredients time = true)
  | [], _ => by simp [build_steps]
  | p :: rest, n => by
    intro s hs
    simp only [build_steps, List.mem_cons] at hs
    rcases hs with rfl | hs'
    · simp only []
      constructor
      · intro hne
        by_contra hopp
        have hopp' : has_opposite_time kg p.ingredients time = false :=
          Bool.not_eq_true _ ▸ Bool.eq_false_iff.mpr hopp
        have hf : (check_time_appropriateness kg p.ingredients time).1 = true := by
          rw [cta_fst, hopp']
          rfl
        simp [hf] at hne
      · intro hopp
        have hf : (check_time_appropriateness kg p.ingredients time).1 = false := by
          rw [cta_fst, hopp]
          rfl
        simp only [hf, Bool.false_eq_true, if_false]
        exact cta_snd_ne kg time p.ingredients hopp
    · exact build_steps_notes_spec kg time rest (n+1) s hs'

/-- C7: in `build_routine`, a step's notes field carries a
time-appropriateness annotation exactly when some ingredient it contains
is restricted to the opposite time-of-day, and the annotation does not
affect the steps' positions (the projected (name, ingredients) sequence is
the same for both build times, being determined by the sort alone). -/
theorem build_routine_notes_spec (kg : IngredientKnowledgeGraph)
    (products : List Product) (profile : Option SkinProfile) :
    (∀ time : RoutineTime,
      ∀ s ∈ (build_routine kg products time profile).1.steps,
        (s.notes ≠ "" ↔ has_opposite_time kg s.ingredients time = true)) ∧
    (∀ t1 t2 : RoutineTime,
      ((build_routine kg products t1 profile).1.steps.map
        fun s => (s.product_name, s.ingredients)) =
      ((build_routine kg products t2 profile).1.steps.map
        fun s => (s.product_name, s.ingredients))) := by
  constructor
  · intro time s hs
    have hs' : s ∈ build_steps kg time 0 (products.mergeSort (product_le kg)) := hs
    exact build_steps_notes_spec kg time _ 0 s hs'
  · intro t1 t2
    have h1 := build_steps_map_proj kg t1 (fun name ings => (name, ings))
      (products.mergeSort (product_le kg)) 0
    have h2 := build_steps_map_proj kg t2 (fun name ings => (name, ings))
      (products.mergeSort (product_le kg)) 0
    have e1 : (build_routine kg products t1 profile).1.steps =
        build_steps kg t1 0 (products.mergeSort (product_le kg)) := rfl
    have e2 : (build_routine kg products t2 profile).1.steps =
        build_steps kg t2 0 (products.mergeSort (product_le kg)) := rfl
    rw [e1, e2, h1, h2]

/-- Witness for C7 at a concrete input: building an AM routine from a
retinol product (PM-only ingredient) yields a first step whose notes field
is the time-appropriateness warning. -/
theorem build_routine_notes_spec_witness :
    ((build_routine kgDemo [⟨"Retinol Serum", ["retinol"]⟩]
        RoutineTime.AM none).1.steps.getD 0 default ∈
      (build_routine kgDemo [⟨"Retinol Serum", ["retinol"]⟩]
        RoutineTime.AM none).1.steps) ∧
    (((build_routine kgDemo [⟨"Retinol Serum", ["retinol"]⟩]
        RoutineTime.AM none).1.steps.getD 0 default).notes ≠ "" ↔
      has_opposite_time kgDemo
        ((build_routine kgDemo [⟨"Retinol Serum", ["retinol"]⟩]
          RoutineTime.AM none).1.steps.getD 0 default).ingredients
        RoutineTime.AM = true) := by
  have hm : (build_routine kgDemo [⟨"Retinol Serum", ["retinol"]⟩]
      RoutineTime.AM none).1.steps =
      build_steps kgDemo RoutineTime.AM 0 [⟨"Retinol Serum", ["retinol"]⟩] := by
    show build_steps kgDemo RoutineTime.AM 0
        ([⟨"Retinol Serum", ["retinol"]⟩].mergeSort (product_le kgDemo)) = _
    rw [List.mergeSort_singleton]
  refine ⟨?_, ?_⟩
  · rw [hm]
    decide
  · exact (build_routine_notes_spec kgDemo [⟨"Retinol Serum", ["retinol"]⟩] none).1
      RoutineTime.AM _ (by rw [hm]; decide)

theorem treatments_loop_spec (profile : SkinProfile) :
    ∀ (ins : List Ingredient) (cats : List String),
    ∃ sel : List Ingredient,
      List.Sublist sel ins ∧
      (sel.map fun i => i.category).Nodup ∧
      (∀ i ∈ sel, i.category ∉ cats) ∧
      treatments_loop profile ins cats = sel.map (treatment_suggestion profile)
  | [], cats => ⟨[], by simp, by simp, by simp, rfl⟩
  | ingredient :: rest, cats => by
    by_cases hc : ingredient.category ∈ cats
    · obtain ⟨sel, hsub, hnd, hdisj, heq⟩ := treatments_loop_spec profile rest cats
      exact ⟨sel, hsub.cons _, hnd, hdisj, by simp [treatments_loop, hc, heq]⟩
    · obtain ⟨sel, hsub, hnd, hdisj, heq⟩ :=
        treatments_loop_spec profile rest (ingredient.category :: cats)
      refine ⟨ingredient :: sel, hsub.cons₂ _, ?_, ?_, ?_⟩
      · rw [List.map_cons, List.nodup_cons]
        refine ⟨?_, hnd⟩
        intro hmem
        obtain ⟨i, hi, hcat⟩ := List.mem_map.mp hmem
        exact (hdisj i hi) (by rw [hcat]; exact List.mem_cons_self _ _)
      · intro i hi
        rcases List.mem_cons.mp hi with rfl | hi'
        · exact hc
        · intro hmem
          exact (hdisj i hi') (List.mem_cons_of_mem _ hmem)
      · simp [treatments_loop, hc, heq]

theorem treatment_ne_moisturizer (profile : SkinProfile) (ing : Ingredient) :
    treatment_suggestion profile ing ≠ moisturizer_suggestion := by
  intro h
  have hp := congrArg StepSuggestion.priority h
  have hp' : "recommended" = "essential" := hp
  exact absurd hp' (by decide)

theorem treatment_priority (profile : SkinProfile) (ing : Ingredient) :
    (treatment_suggestion profile ing).priority = "recommended" := rfl

/-- Counterexample for C8: at the aging profile and time PM, the unique
moisturizer step of `suggest_routine` is the *final* entry of the list —
no moisturizer step appears strictly before the end, contradicting the
claim that the moisturizer step appears before the end for every profile
and time. -/
theorem suggest_routine_moisturizer_at_end_pm :
    (suggest_routine kgDemo aging_profile RoutineTime.PM "moderate").getLastD default =
      moisturizer_suggestion ∧
    ((suggest_routine kgDemo aging_profile RoutineTime.PM "moderate").dropLast.count
      moisturizer_suggestion) = 0 ∧
    (suggest_routine kgDemo aging_profile RoutineTime.PM "moderate").count
      moisturizer_suggestion = 1 := by decide

/-- C8 (amended: the moisturizer step is the final entry when time is PM
and the entry just before the final sunscreen step when time is AM): for
every profile, time and budget, `suggest_routine` starts with the cleanser
step, contains exactly one moisturizer step (last for PM, second-to-last
for AM), has at most 5 treatment entries drawn from distinct ingredient
categories, and ends with the sunscreen step exactly when time is AM. -/
theorem suggest_routine_spec (kg : IngredientKnowledgeGraph)
    (profile : SkinProfile) (time : RoutineTime) (budget : String) :
    (suggest_routine kg profile time budget).headD default =
      cleanser_suggestion ∧
    suggest_routine kg profile time budget ≠ [] ∧
    (suggest_routine kg profile time budget).count moisturizer_suggestion = 1 ∧
    ((if time = RoutineTime.AM
        then (suggest_routine kg profile time budget).dropLast
        else suggest_routine kg profile time budget).getLastD default =
      moisturizer_suggestion) ∧
    ((suggest_routine kg profile time budget).getLastD default = spf_suggestion ↔
      time = RoutineTime.AM) ∧
    ((suggest_routine kg profile time budget).filter
      (fun s => s.priority == "recommended")).length ≤ 5 ∧
    (∃ sel : List Ingredient,
      List.Sublist sel
        ((time_appropriate time (kg.get_recommended_ingredients profile)).take 5) ∧
      (sel.map fun i => i.category).Nodup ∧
      (suggest_routine kg profile time budget).filter
        (fun s => s.priority == "recommended") =
        sel.map (treatment_suggestion profile)) := by
  obtain ⟨sel, hsub, hnd, hdisj, heq⟩ := treatments_loop_spec profile
    ((time_appropriate time (kg.get_recommended_ingredients profile)).take 5) []
  have hl : suggest_routine kg profile time budget =
      cleanser_suggestion ::
        (sel.map (treatment_suggestion profile) ++
          ([moisturizer_suggestion] ++
            (if time = RoutineTime.AM then [spf_suggestion] else []))) := by
    show cleanser_suggestion ::
        treatments_loop profile
          ((time_appropriate time (kg.get_recommended_ingredients profile)).take 5) [] ++
        [moisturizer_suggestion] ++
        (if time = RoutineTime.AM then [spf_suggestion] else []) = _
    rw [heq]
    simp [List.cons_append, List.append_assoc]
  have hmem_T : moisturizer_suggestion ∉ sel.map (treatment_suggestion profile) := by
    intro hmem
    obtain ⟨i, _, hcat⟩ := List.mem_map.mp hmem
    exact treatment_ne_moisturizer profile i hcat
  have hcount_T : (sel.map (treatment_suggestion profile)).count
      moisturizer_suggestion = 0 := List.count_eq_zero.mpr hmem_T
  have hfilter_T : (sel.map (treatment_suggestion profile)).filter
      (fun s => s.priority == "recommended") =
      sel.map (treatment_suggestion profile) := by
    refine List.filter_eq_self.mpr ?_
    intro s hs
    obtain ⟨i, _, hcat⟩ := List.mem_map.mp hs
    rw [← hcat]
    rfl
  have hE : ∀ E : List StepSuggestion,
      E.filter (fun s => s.priority == "recommended") = [] →
      (cleanser_suggestion ::
        (sel.map (treatment_suggestion profile) ++
          ([moisturizer_suggestion] ++ E))).filter
        (fun s => s.priority == "recommended") =
        sel.map (treatment_suggestion profile) := by
    intro E hEf
    rw [List.filter_cons, if_neg (by decide), List.filter_append,
      List.filter_append, hfilter_T, hEf]
    rw [show List.filter (fun s => s.priority == "recommended")
        [moisturizer_suggestion] = [] from rfl]
    simp
  have hsplit : ∀ X : List StepSuggestion,
      cleanser_suggestion ::
        (sel.map (treatment_suggestion profile) ++
          ([moisturizer_suggestion] ++ X)) =
      (cleanser_suggestion ::
        (sel.map (treatment_suggestion profile) ++ [moisturizer_suggestion])) ++ X := by
    intro X
    simp
  have hsplit2 : cleanser_suggestion ::
      (sel.map (treatment_suggestion profile) ++ [moisturizer_suggestion]) =
      (cleanser_suggestion :: sel.map (treatment_suggestion profile)) ++
        [moisturizer_suggestion] := by
    simp
  refine ⟨?_, ?_, ?_, ?_, ?_, ?_, ?_⟩
  · rw [hl]; rfl
  · rw [hl]; exact List.cons_ne_nil _ _
  · cases time with
    | AM =>
      rw [hl, if_pos rfl, List.count_cons, List.count_append, hcount_T]
      decide
    | PM =>
      rw [hl, if_neg (by decide), List.count_cons, List.count_append, hcount_T]
      decide
  · cases time with
    | AM =>
      rw [if_pos rfl, hl, if_pos rfl, hsplit [spf_suggestion],
        List.dropLast_concat, hsplit2]
      exact List.getLastD_concat _ _ _
    | PM =>
      rw [if_neg (by decide), hl, if_neg (by decide), List.append_nil, hsplit2]
      exact List.getLastD_concat _ _ _
  · cases time with
    | AM =>
      rw [hl, if_pos rfl]
      constructor
      · intro _; rfl
      · intro _
        rw [hsplit [spf_suggestion]]
        exact List.getLastD_concat _ _ _
    | PM =>
      rw [hl, if_neg (by decide)]
      constructor
      · intro hlast
        exfalso
        rw [List.append_nil, hsplit2, List.getLastD_concat] at hlast
        exact absurd hlast (by decide)
      · intro h; exact absurd h (by decide)
  · have hlen : sel.length ≤ 5 := by
      calc sel.length ≤
          ((time_appropriate time (kg.get_recommended_ingredients profile)).take 5).length :=
            hsub.length_le
        _ ≤ 5 := by rw [List.length_take]; exact Nat.min_le_left _ _
    cases time with
    | AM =>
      rw [hl, if_pos rfl, hE [spf_suggestion] rfl, List.length_map]
      exact hlen
    | PM =>
      rw [hl, if_neg (by decide), hE [] rfl, List.length_map]
      exact hlen
  · refine ⟨sel, hsub, hnd, ?_⟩
    cases time with
    | AM => rw [hl, if_pos rfl, hE [spf_suggestion] rfl]
    | PM => rw [hl, if_neg (by decide), hE [] rfl]
